import Mathlib

/-!
Shallow embedding of the video ingestion pipeline of the repository
(`services/videoService.js`, the `VideoService` class, and the
`/analyze` route handler in `routes/video.js`).

Conventions of the embedding:
* File-system state is a `Finset String` of existing paths in the scratch
  directory; creating a file inserts its path, `fs.unlink` removes it.
* External effects (the ytdl download stream, the ffmpeg transcoder and
  screenshot extractor, the Whisper transcription API, the vision API,
  `uuidv4()`, `Date.now`) are modelled as oracle fields of an `Env`
  record: each field fixes the outcome the external world produces for
  the corresponding call during one run.
* A JS `async` function that can `throw` becomes a Lean function
  returning `Except String α × Fs` (the error value is the thrown
  message); a function that cannot throw returns `α × Fs`.
* String scanning helpers work on `String.data` (the underlying
  `List Char`) so that concrete evaluations reduce well in the kernel.
-/

namespace VS

abbrev Path := String

abbrev Fs := Finset String

/-- Byte-for-byte prefix test on character lists (model of a JS regex
literal matching at the current position). -/
def chainStarts : List Char → List Char → Bool
  | [], _ => true
  | _ :: _, [] => false
  | a :: as, b :: bs => a == b && chainStarts as bs

/-- Test that `p` is a prefix of `s` (used to model `^`-anchored regex tests). -/
def strStarts (p s : String) : Bool := chainStarts p.data s.data

/-- Drop the first `n` characters of a string. -/
def strDrop (s : String) (n : Nat) : String := ⟨s.data.drop n⟩

/-- Model of the optional scheme group `(https?:\/\/)?` of the URL
classification regexes: strip one leading scheme if present. -/
def stripScheme (s : String) : String :=
  if strStarts "https://" s then strDrop s 8
  else if strStarts "http://" s then strDrop s 7
  else s

/-- Model of the optional `(www\.)?` group: strip a leading `www.`. -/
def stripWww (s : String) : String :=
  if strStarts "www." s then strDrop s 4 else s

/-- Model of `VideoService.isYouTubeUrl`: test of
`/^(https?:\/\/)?(www\.)?(youtube\.com|youtu\.be)\//`. -/
def isYouTubeUrl (url : String) : Bool :=
  let r := stripWww (stripScheme url)
  strStarts "youtube.com/" r || strStarts "youtu.be/" r

/-- Model of `VideoService.isInstagramUrl`: test of
`/^(https?:\/\/)?(www\.)?instagram\.com\//`. -/
def isInstagramUrl (url : String) : Bool :=
  let r := stripWww (stripScheme url)
  strStarts "instagram.com/" r

/-- JS `\w` character class: `[A-Za-z0-9_]`. -/
def isWordChar (c : Char) : Bool := c.isAlphanum || c = '_'

/-- A character the JS `.` metacharacter matches (anything but a line
terminator). -/
def notLineTerm (c : Char) : Bool :=
  c ≠ '\n' && c ≠ '\r' && c.toNat ≠ 0x2028 && c.toNat ≠ 0x2029

/-- The alternation group
`(youtu.be\/|v\/|u\/\w\/|embed\/|watch\?v=|&v=)` of the YouTube-ID
regex in `VideoService.extractVideoId`, matched at the current
position; returns the remainder on success.  (In `youtu.be\/` the dot
before `be` is an unescaped `.` in the source, hence the wildcard
character.)  The six alternatives start with six distinct characters,
so at most one can match: no backtracking between alternatives is
possible. -/
def ytAltStrip : List Char → Option (List Char)
  | 'y' :: 'o' :: 'u' :: 't' :: 'u' :: c :: 'b' :: 'e' :: '/' :: r =>
      if notLineTerm c then some r else none
  | 'v' :: '/' :: r => some r
  | 'u' :: '/' :: c :: '/' :: r => if isWordChar c then some r else none
  | 'e' :: 'm' :: 'b' :: 'e' :: 'd' :: '/' :: r => some r
  | 'w' :: 'a' :: 't' :: 'c' :: 'h' :: '?' :: 'v' :: '=' :: r => some r
  | '&' :: 'v' :: '=' :: r => some r
  | _ => none

/-- Capture group 2 of the YouTube-ID regex
`/^.(youtu.be\/|v\/|u\/\w\/|embed\/|watch\?v=|&v=)([^#&?]).*/`
as written in the source: one arbitrary character, the alternation,
then a single character not in `#&?` (the capture), then anything.
Note the regex in the source has no quantifier after `^.` nor inside
`([^#&?])`, so the capture is always exactly one character. -/
def ytGroup2 (url : String) : Option Char :=
  match url.data with
  | [] => none
  | c0 :: rest =>
      if notLineTerm c0 then
        match ytAltStrip rest with
        | some (d :: _) =>
            if d ≠ '#' && d ≠ '&' && d ≠ '?' then some d else none
        | _ => none
      else none

/-- Character class `[A-Za-z0-9_-]` of the Instagram-ID regex. -/
def igClassChar (c : Char) : Bool := c.isAlphanum || c = '_' || c = '-'

/-- First match of `/\/p\/([A-Za-z0-9_-]+)/` (unanchored, greedy):
scan for the first position where `/p/` is followed by at least one
class character, and capture the maximal run. -/
def igScan : List Char → Option (List Char)
  | '/' :: 'p' :: '/' :: rest =>
      let tok := rest.takeWhile igClassChar
      if tok.isEmpty then igScan ('p' :: '/' :: rest) else some tok
  | _ :: tl => igScan tl
  | [] => none
termination_by cs => cs.length

/-- Model of `VideoService.extractVideoId`.  `fresh` is the value `uuidv4()`
returns for this call (a fresh draw on every call at run time, hence a
parameter of the model).  Mirrors:
YouTube branch — `match && match[2].length === 11 ? match[2] : uuidv4()`;
Instagram branch — `match ? match[1] : uuidv4()`; otherwise `uuidv4()`. -/
def extractVideoId (videoUrl : String) (fresh : String) : String :=
  if isYouTubeUrl videoUrl then
    match ytGroup2 videoUrl with
    | some d => if (String.singleton d).length == 11 then String.singleton d else fresh
    | none => fresh
  else if isInstagramUrl videoUrl then
    match igScan videoUrl.data with
    | some tok => String.mk tok
    | none => fresh
  else fresh

/-- A transcript segment as returned by the transcription API
(`segment.end` is the field `calculateDuration` reads). -/
structure Seg where
  startT : ℚ
  endT : ℚ
  text : String
deriving DecidableEq

/-- Model of `VideoService.calculateDuration`: the argument is
`response.segments`, which may be absent (`undefined`), hence
`Option`.  Mirrors `if (!segments || segments.length === 0) return 0;
... return lastSegment.end || 0` (a falsy — i.e. zero — `end` yields
`0`). -/
def calculateDuration : Option (List Seg) → ℚ
  | none => 0
  | some segs =>
      match segs.getLast? with
      | none => 0
      | some lastSegment => if lastSegment.endT = 0 then 0 else lastSegment.endT

/-- Model of `fs.unlink`: removes the file, or raises `ENOENT` when the path
does not exist. -/
def unlink (filePath : Path) (s : Fs) : Except String Fs :=
  if filePath ∈ s then .ok (s.erase filePath) else .error "ENOENT"

/-- Model of `VideoService.cleanupFile`: `try { await fs.unlink(filePath) }
catch (error) { console.error(...) }` — a deletion failure is caught
and logged, never rethrown. -/
def cleanupFile (filePath : Path) (s : Fs) : Fs :=
  match unlink filePath s with
  | .ok s' => s'
  | .error _ => s

/-- The scratch directory `path.join(__dirname, '../temp')`, modelled
as the constant prefix of every temporary path. -/
def tempDir : String := "temp"

/-- Response of the Whisper transcription API
(`openai.audio.transcriptions.create`): `segments` and `language` may
be absent from the JSON. -/
structure WhisperResp where
  text : String
  segments : Option (List Seg)
  language : Option String

/-- The object `transcribeAudio` returns on success. -/
structure Transcript where
  text : String
  segments : List Seg
  duration : ℚ
  language : String

/-- Outcome of the streaming download + ffmpeg transcode in
`extractYouTubeAudio` (external nondeterminism): the stream either
completes (`success`, output file written), or the ffmpeg pipeline
errors after the output file has been created (`failAfterWrite`), or
errors before any output exists (`failBeforeWrite`). -/
inductive TranscodeOutcome
  | success
  | failAfterWrite
  | failBeforeWrite
deriving DecidableEq

/-- Outcome of the ffmpeg screenshot extraction in `extractFrames`:
`success` is the `end` event (all requested screenshots written),
`ffmpegError` the `error` event. -/
inductive FramesOutcome
  | success
  | ffmpegError
deriving DecidableEq

/-- One run's external world: uuid draws, API outcomes, the wall
clock.  `uuidA`/`uuidB` are the `uuidv4()` draws inside
`extractAudio` (video-id fallback and `.wav` suffix), `uuidC` the draw
inside `extractFrames`; `vision` maps a frame path to `some
description` when its vision call succeeds and `none` when the read or
the call fails. -/
structure Env where
  uuidA : String
  uuidB : String
  uuidC : String
  audioOutcome : TranscodeOutcome
  whisper : Except String WhisperResp
  framesOutcome : FramesOutcome
  vision : Path → Option String
  now : String

/-- Model of `VideoService.extractYouTubeAudio`: pipes the ytdl stream through
ffmpeg into `audioPath`; resolves with `audioPath` on `end`, rejects
with the ffmpeg error on `error`.  No cleanup is performed on the
error path, so a partially written output file survives
(`failAfterWrite`). -/
def extractYouTubeAudio (outcome : TranscodeOutcome) (audioPath : Path) (s : Fs) :
    Except String Path × Fs :=
  match outcome with
  | .success => (.ok audioPath, insert audioPath s)
  | .failAfterWrite => (.error "FFmpeg error", insert audioPath s)
  | .failBeforeWrite => (.error "FFmpeg error", s)

/-- Model of `VideoService.extractInstagramAudio`: the placeholder always
throws, and its inner catch rethrows with a fixed message. -/
def extractInstagramAudio (s : Fs) : Except String Path × Fs :=
  (.error "Instagram video extraction not yet implemented", s)

/-- Model of `VideoService.extractAudio`: builds the audio path
`tempDir/videoId-uuid.wav`, dispatches on the platform, and wraps any
error (including `'Unsupported video platform'`) in the single generic
message `'Failed to extract audio from video'` via the enclosing
catch. -/
def extractAudio (env : Env) (videoUrl : String) (s : Fs) : Except String Path × Fs :=
  let videoId := extractVideoId videoUrl env.uuidA
  let audioPath := tempDir ++ "/" ++ videoId ++ "-" ++ env.uuidB ++ ".wav"
  let inner : Except String Path × Fs :=
    if isYouTubeUrl videoUrl then extractYouTubeAudio env.audioOutcome audioPath s
    else if isInstagramUrl videoUrl then extractInstagramAudio s
    else (.error "Unsupported video platform", s)
  match inner with
  | (.ok p, s') => (.ok p, s')
  | (.error _, s') => (.error "Failed to extract audio from video", s')

/-- Model of `VideoService.transcribeAudio`: reads the audio file (fails when
absent), calls Whisper, deletes the audio file, and returns the
transcript; the catch also deletes the audio file and rethrows
`'Failed to transcribe audio'`. -/
def transcribeAudio (whisper : Except String WhisperResp) (audioPath : Path) (s : Fs) :
    Except String Transcript × Fs :=
  if audioPath ∈ s then
    match whisper with
    | .ok r =>
        (.ok { text := r.text
               segments := r.segments.getD []
               duration := calculateDuration r.segments
               language := r.language.getD "en" },
         cleanupFile audioPath s)
    | .error _ => (.error "Failed to transcribe audio", cleanupFile audioPath s)
  else
    (.error "Failed to transcribe audio", cleanupFile audioPath s)

/-- The intermediate download target `tempDir/videoId-temp.mp4` of
`extractFrames`. -/
def tempVideoPath (videoId : String) : Path := tempDir ++ "/" ++ videoId ++ "-temp.mp4"

/-- The screenshot file `tempDir/videoId-frame-i.png` (ffmpeg `%i`
starts at 1). -/
def framePath (videoId : String) (i : Nat) : Path :=
  tempDir ++ "/" ++ videoId ++ "-frame-" ++ toString i ++ ".png"

/-- The frame-path list the source pushes for `i = 1 .. frameCount`. -/
def framePathList (videoId : String) (frameCount : Nat) : List Path :=
  (List.range frameCount).map (fun i => framePath videoId (i + 1))

/-- Model of `VideoService.extractFrames`: downloads the video to
`tempVideoPath` (write stream `finish`), runs ffmpeg screenshots;
on `end` the `frameCount` screenshot files exist, `tempVideoPath` is
cleaned and the promise resolves with the pushed frame-path list; on
`error` only `tempVideoPath` is cleaned and the promise rejects. -/
def extractFrames (env : Env) (videoUrl : String) (frameCount : Nat) (s : Fs) :
    Except String (List Path) × Fs :=
  let videoId := extractVideoId videoUrl env.uuidC
  let tv := tempVideoPath videoId
  let s1 := insert tv s
  match env.framesOutcome with
  | .success =>
      let s2 := (framePathList videoId frameCount).foldl (fun st f => insert f st) s1
      (.ok (framePathList videoId frameCount), cleanupFile tv s2)
  | .ffmpegError => (.error "FFmpeg error", cleanupFile tv s1)

/-- One per-frame analysis record pushed by `analyzeFrames`. -/
structure Note where
  frame : Path
  analysis : String
  timestamp : String
deriving DecidableEq

/-- The per-frame loop of `VideoService.analyzeFrames`: reads each
frame, calls the vision API, pushes a record on success and skips the
frame on any error (`continue`); the file system is never mutated by
the loop (no unlink occurs inside it).  `vision p = none` models a
failed read or vision call for frame `p`. -/
def analyzeFramesGo (vision : Path → Option String) (now : String) :
    List Path → Fs → List Note × Fs
  | [], s => ([], s)
  | p :: rest, s =>
      match vision p with
      | some a =>
          let r := analyzeFramesGo vision now rest s
          ({ frame := p, analysis := a, timestamp := now } :: r.1, r.2)
      | none => analyzeFramesGo vision now rest s

/-- An entry of `importantVisuals`. -/
structure ImpVis where
  description : String
  timestamp : String
deriving DecidableEq

/-- Test that `s` contains `pat` as a substring (JS `String.includes`). -/
def containsSub (s pat : String) : Bool := (s.splitOn pat).length > 1

/-- Lowercase a string (JS `toLowerCase`, ASCII-relevant part). -/
def lowerStr (s : String) : String := ⟨s.data.map Char.toLower⟩

/-- Model of `[...new Set(xs)]`: deduplicate keeping first occurrences. -/
def dedupFirst (xs : List String) : List String :=
  (xs.foldl (fun acc x => if x ∈ acc then acc else acc ++ [x]) [])

/-- Model of `VideoService.extractKeyVisualElements`. -/
def extractKeyVisualElements (analyses : List Note) : List String :=
  dedupFirst <| analyses.foldl
    (fun acc a =>
      let t := lowerStr a.analysis
      let acc1 := if containsSub t "chart" || containsSub t "graph"
        then acc ++ ["Charts/Graphs detected"] else acc
      let acc2 := if containsSub t "text" || containsSub t "title"
        then acc1 ++ ["Important text elements"] else acc1
      if containsSub t "diagram" || containsSub t "flowchart"
        then acc2 ++ ["Diagrams/Flowcharts"] else acc2)
    []

/-- All matches of `/"([^"]+)"/g` with the quotes stripped, in order. -/
def quotedRuns : List Char → List String
  | [] => []
  | '"' :: rest =>
      let tok := rest.takeWhile (fun c => c ≠ '"')
      match h : rest.drop tok.length with
      | '"' :: tail =>
          if tok.isEmpty then quotedRuns rest else String.mk tok :: quotedRuns tail
      | _ => []
  | _ :: tl => quotedRuns tl
termination_by cs => cs.length
decreasing_by
  · simp
  · have h2 := congrArg List.length h
    simp only [List.length_drop, List.length_cons] at h2
    simp only [List.length_cons]
    omega
  · simp

/-- Model of `VideoService.extractTextFromAnalyses`. -/
def extractTextFromAnalyses (analyses : List Note) : List String :=
  analyses.foldl (fun acc a => acc ++ quotedRuns a.analysis.data) []

/-- Model of `VideoService.identifyImportantVisuals`. -/
def identifyImportantVisuals (analyses : List Note) : List ImpVis :=
  (analyses.filter (fun a =>
      let t := lowerStr a.analysis
      containsSub t "important" || containsSub t "key" || containsSub t "significant")).map
    (fun a => { description := a.analysis, timestamp := a.timestamp })

/-- The aggregate object of the visual branch.  The success shape of
`analyzeFrames` has no `sceneChanges` field and the catch shapes have
no `frameAnalyses`; the model carries both fields, with the missing
one empty. -/
structure VisualResult where
  frameAnalyses : List Note
  keyVisualElements : List String
  textInImages : List String
  sceneChanges : List String
  importantVisuals : List ImpVis
deriving DecidableEq

/-- Model of `VideoService.analyzeFrames`: runs the per-frame loop and wraps
the collected records with the derived summary fields; the outer catch
is unreachable in the model because the loop is total. -/
def analyzeFrames (env : Env) (framePaths : List Path) (s : Fs) : VisualResult × Fs :=
  let r := analyzeFramesGo env.vision env.now framePaths s
  ({ frameAnalyses := r.1
     keyVisualElements := extractKeyVisualElements r.1
     textInImages := extractTextFromAnalyses r.1
     sceneChanges := []
     importantVisuals := identifyImportantVisuals r.1 }, r.2)

/-- The empty object the catch of `analyzeVisuals` returns. -/
def emptyVisual : VisualResult :=
  { frameAnalyses := []
    keyVisualElements := []
    textInImages := []
    sceneChanges := []
    importantVisuals := [] }

/-- Model of `VideoService.analyzeVisuals`: extract frames, analyze them, then
delete every frame in a loop after the whole analysis; any extraction
error is caught and an empty result returned. -/
def analyzeVisuals (env : Env) (videoUrl : String) (s : Fs) : VisualResult × Fs :=
  match extractFrames env videoUrl 10 s with
  | (.error _, s1) => (emptyVisual, s1)
  | (.ok frames, s1) =>
      let r := analyzeFrames env frames s1
      (r.1, frames.foldl (fun st f => cleanupFile f st) r.2)

/-- The `combinedContent`/response payload of the `/analyze` route. -/
structure AnalysisOut where
  transcript : Transcript
  visualNotes : VisualResult
  url : String
  duration : ℚ

/-- The `/analyze` route handler in `routes/video.js`: extract audio,
transcribe, analyze visuals, respond; any error thrown by the first
two awaits reaches the handler's catch, which sends a 500 response
(modelled as `Except.error` carrying the thrown message). -/
def processRequest (env : Env) (url : String) (s : Fs) : Except String AnalysisOut × Fs :=
  match extractAudio env url s with
  | (.error e, s1) => (.error e, s1)
  | (.ok audioPath, s1) =>
      match transcribeAudio env.whisper audioPath s1 with
      | (.error e, s2) => (.error e, s2)
      | (.ok transcript, s2) =>
          let r := analyzeVisuals env url s2
          (.ok { transcript := transcript
                 visualNotes := r.1
                 url := url
                 duration := transcript.duration }, r.2)

/-! Concrete fixtures used to evaluate the model on closed inputs. -/

/-- A Whisper response with one five-second segment. -/
def wResp : WhisperResp :=
  { text := "hello world"
    segments := some [{ startT := 0, endT := 5, text := "hello world" }]
    language := some "en" }

/-- A vision oracle for which every frame analysis succeeds. -/
def visionAll : Path → Option String := fun _ => some "frame description"

/-- An environment in which every external call succeeds. -/
def envBase : Env :=
  { uuidA := "ua"
    uuidB := "ub"
    uuidC := "uc"
    audioOutcome := .success
    whisper := .ok wResp
    framesOutcome := .success
    vision := visionAll
    now := "2024-01-01T00:00:00.000Z" }

/-- Like `envBase` but the audio download/transcode stream errors
before any output file exists. -/
def envStreamErr : Env := { envBase with audioOutcome := .failBeforeWrite }

/-- Like `envBase` but the audio transcode errors after the output
`.wav` file has been created. -/
def envAudioLeak : Env := { envBase with audioOutcome := .failAfterWrite }

/-- Like `envBase` but the Whisper call fails. -/
def envWhisperFail : Env := { envBase with whisper := .error "api error" }

/-- A vision oracle failing exactly on the third and sixth sampled
frame of video id `uc` (sampling indices 2 and 5 counted from 0). -/
def visionFail25 : Path → Option String := fun p =>
  if p = framePath "uc" 3 ∨ p = framePath "uc" 6 then none else some "frame description"

/-- Like `envBase` but frame analyses for sampling indices 2 and 5
fail. -/
def envVision25 : Env := { envBase with vision := visionFail25 }

/-- A parseable YouTube watch URL with an 11-character video token. -/
def ytUrl : String := "https://www.youtube.com/watch?v=dQw4w9WgXcQ"

/-- A URL of a platform the service does not support. -/
def vimeoUrl : String := "https://vimeo.com/123"

/-! Helper lemmas shared by the claim theorems. -/

/-- Helper: the caught-unlink cleanup always leaves exactly the state
with the path removed. -/
theorem cleanupFile_eq_erase (p : Path) (s : Fs) : cleanupFile p s = s.erase p := by
  by_cases h : p ∈ s
  · simp [cleanupFile, unlink, h]
  · simp [cleanupFile, unlink, h, Finset.erase_eq_of_not_mem h]

/-- Helper: the per-frame analysis loop never mutates the file
system. -/
theorem analyzeFramesGo_state (vision : Path → Option String) (now : String) :
    ∀ (fps : List Path) (s : Fs), (analyzeFramesGo vision now fps s).2 = s
  | [], _ => rfl
  | p :: rest, s => by
      cases hv : vision p <;>
        simp [analyzeFramesGo, hv, analyzeFramesGo_state vision now rest s]

/-- Helper: the frames recorded by the per-frame loop are exactly the
frames whose analysis succeeded, in input order. -/
theorem analyzeFramesGo_frames (vision : Path → Option String) (now : String) :
    ∀ (fps : List Path) (s : Fs),
      (analyzeFramesGo vision now fps s).1.map Note.frame
        = fps.filter (fun p => (vision p).isSome)
  | [], _ => rfl
  | p :: rest, s => by
      cases hv : vision p <;>
        simp [analyzeFramesGo, hv, List.filter_cons,
          analyzeFramesGo_frames vision now rest s]

/-- Helper: folding `insert` over a list keeps old members and adds
every list element. -/
theorem mem_foldl_insert (l : List Path) (s : Fs) (p : Path) (h : p ∈ s ∨ p ∈ l) :
    p ∈ l.foldl (fun st f => insert f st) s := by
  induction l generalizing s with
  | nil => simpa using h.resolve_right (by simp)
  | cons a l ih =>
      simp only [List.foldl_cons]
      apply ih
      rcases h with h | h
      · exact Or.inl (Finset.mem_insert_of_mem h)
      · rcases List.mem_cons.mp h with rfl | h
        · exact Or.inl (Finset.mem_insert_self _ _)
        · exact Or.inr h

/-- Helper: a screenshot path (ending in `.png`) can never equal the
intermediate video path (ending in `.mp4`). -/
theorem framePath_ne_tempVideoPath (vid : String) (i : Nat) :
    framePath vid i ≠ tempVideoPath vid := by
  intro h
  have h2 := congrArg (fun t : String => t.data.getLast?) h
  simp only [framePath, tempVideoPath, String.data_append] at h2
  rw [List.getLast?_append_of_ne_nil _ (by decide),
    List.getLast?_append_of_ne_nil _ (by decide)] at h2
  simp at h2

/-- Helper: on a YouTube-like URL the ID regex of the source can only
capture a single character, so the `length === 11` guard always fails
and a fresh synthetic uuid is returned. -/
theorem extractVideoId_yt_always_fresh (url fresh : String)
    (h : isYouTubeUrl url = true) : extractVideoId url fresh = fresh := by
  unfold extractVideoId
  rw [if_pos h]
  cases hg : ytGroup2 url
  · rfl
  · rfl

/-! Claim theorems. -/

/-- C9: for every transcript, `calculateDuration` yields the
`end` offset of the last segment of the segment sequence, and `0` when
the segment sequence is empty or absent. -/
theorem calculateDuration_last_end :
    (∀ segs : List Seg,
        calculateDuration (some segs) = ((segs.getLast?).map Seg.endT).getD 0)
    ∧ calculateDuration none = 0 := by
  constructor
  · intro segs
    cases h : segs.getLast? with
    | none => simp [calculateDuration, h]
    | some lastSegment =>
        simp only [calculateDuration, h, Option.map_some', Option.getD_some]
        split <;> simp_all
  · rfl

/-- C10: the internal cleanup operation used by all stages never
throws: it always produces the state with the path removed even though
the underlying `unlink` fails on an absent path, and a repeated or
failing deletion is a no-op (so it can neither abort a stage nor
change the surrounding state beyond removing the one path). -/
theorem cleanupFile_never_throws :
    (∀ (p : Path) (s : Fs), cleanupFile p s = s.erase p)
    ∧ (∀ (p : Path) (s : Fs), cleanupFile p (cleanupFile p s) = cleanupFile p s)
    ∧ (∀ (p : Path) (s : Fs), unlink p (s.erase p) = Except.error "ENOENT")
    ∧ (∀ (p : Path) (s : Fs), cleanupFile p (s.erase p) = s.erase p) := by
  refine ⟨cleanupFile_eq_erase, ?_, ?_, ?_⟩
  · intro p s
    simp [cleanupFile_eq_erase, Finset.erase_idem]
  · intro p s
    simp [unlink]
  · intro p s
    simp [cleanupFile_eq_erase, Finset.erase_idem]

/-- C8: `transcribeAudio` deletes its input audio asset on every path:
after the call the audio path is absent from the file system, both
when a transcript is returned and when the transcription (or the file
read) failed. -/
theorem transcribeAudio_deletes_input :
    ∀ (whisper : Except String WhisperResp) (audioPath : Path) (s : Fs),
      audioPath ∉ (transcribeAudio whisper audioPath s).2 := by
  intro w a s
  unfold transcribeAudio
  by_cases h : a ∈ s
  · cases w <;> simp [h, cleanupFile_eq_erase]
  · simp [h, cleanupFile_eq_erase]

/-- C5: `analyzeFrames` never fails and skips failed frames: for every
frame sequence and every pattern of per-frame failures, the notes list
contains exactly one note per successfully analyzed frame, in sampling
(ascending frame-index) order, with the failed frames absent; in
particular for 10 sampled frames with sampling indices 2 and 5 failing
it returns exactly the 8 notes for indices 0,1,3,4,6,7,8,9 in
ascending order. -/
theorem analyzeFrames_skips_failed :
    (∀ (env : Env) (fps : List Path) (s : Fs),
        ((analyzeFrames env fps s).1.frameAnalyses).map Note.frame
          = fps.filter (fun p => (env.vision p).isSome))
    ∧ ((analyzeFrames envVision25 (framePathList "uc" 10) ∅).1.frameAnalyses).map
          Note.frame
        = [framePath "uc" 1, framePath "uc" 2, framePath "uc" 4, framePath "uc" 5,
           framePath "uc" 7, framePath "uc" 8, framePath "uc" 9, framePath "uc" 10]
    ∧ ((analyzeFrames envVision25 (framePathList "uc" 10) ∅).1.frameAnalyses).length
        = 8 := by
  refine ⟨?_, by decide, by decide⟩
  intro env fps s
  simpa [analyzeFrames] using analyzeFramesGo_frames env.vision env.now fps s

/-- C4 (failing evaluation): resolution of a parseable YouTube URL is
not stable across calls.  The source's ID regex lacks its quantifiers,
so its capture group is a single character, the `length === 11` guard
never passes, and every call returns the freshly drawn uuid — two
calls on the same parseable URL return two different media IDs. -/
theorem extractVideoId_yt_not_stable :
    isYouTubeUrl ytUrl = true
    ∧ extractVideoId ytUrl "uuid-run-1" = "uuid-run-1"
    ∧ extractVideoId ytUrl "uuid-run-2" = "uuid-run-2"
    ∧ "uuid-run-1" ≠ "uuid-run-2" :=
  ⟨rfl, rfl, rfl, by decide⟩

/-- C3: when `extractFrames` returns successfully (the screenshot
extractor's `end` event), the returned ordered sequence has exactly
`frameCount` paths and every one of them exists in the file system at
the moment of return. -/
theorem extractFrames_postcondition :
    ∀ (env : Env) (videoUrl : String) (frameCount : Nat) (s : Fs),
      env.framesOutcome = FramesOutcome.success →
      ∃ frames s', extractFrames env videoUrl frameCount s = (Except.ok frames, s')
        ∧ frames.length = frameCount
        ∧ ∀ p ∈ frames, p ∈ s' := by
  intro env videoUrl frameCount s h
  unfold extractFrames
  rw [h]
  refine ⟨_, _, rfl, by simp [framePathList], ?_⟩
  intro p hp
  rw [cleanupFile_eq_erase, Finset.mem_erase]
  constructor
  · obtain ⟨i, _, rfl⟩ := by simpa [framePathList] using hp
    exact framePath_ne_tempVideoPath _ _
  · exact mem_foldl_insert _ _ _ (Or.inr hp)

/-- C3 witness: a concrete successful extraction. -/
theorem extractFrames_postcondition_witness :
    ∃ frames s', extractFrames envBase ytUrl 10 ∅ = (Except.ok frames, s')
      ∧ frames.length = 10
      ∧ ∀ p ∈ frames, p ∈ s' :=
  extractFrames_postcondition envBase ytUrl 10 ∅ rfl

/-- C7 (failing evaluation): frame assets are not deleted between
per-frame analyses.  With two frames on disk, the state at the moment
the second frame's analysis begins — the loop processes the first
frame alone before reaching the second — still contains the first
frame's asset, and even after both attempts both assets remain; so
more than one frame asset exists on disk during the stage,
contradicting the claimed one-at-a-time bound. -/
theorem frame_assets_not_deleted_per_frame :
    framePath "v" 1 ∈
      (analyzeFramesGo visionAll "t" [framePath "v" 1]
        {framePath "v" 1, framePath "v" 2}).2
    ∧ framePath "v" 2 ∈
      (analyzeFramesGo visionAll "t" [framePath "v" 1]
        {framePath "v" 1, framePath "v" 2}).2
    ∧ framePath "v" 1 ∈
      (analyzeFramesGo visionAll "t" [framePath "v" 1, framePath "v" 2]
        {framePath "v" 1, framePath "v" 2}).2 := by
  refine ⟨by decide, by decide, by decide⟩

/-- C7 amended: the analysis loop never deletes anything — every frame
asset survives until after the whole loop — and the deletions all
happen in the batch cleanup loop of `analyzeVisuals` afterwards, which
removes exactly the frame set; peak on-disk frame count is therefore
the full frame count, not one. -/
theorem analyzeFrames_no_per_frame_cleanup :
    (∀ (env : Env) (fps : List Path) (s : Fs), (analyzeFrames env fps s).2 = s)
    ∧ (∀ (frames : List Path) (s : Fs),
        frames.foldl (fun st f => cleanupFile f st) s = s \ frames.toFinset) := by
  constructor
  · intro env fps s
    simpa [analyzeFrames] using analyzeFramesGo_state env.vision env.now fps s
  · intro frames
    induction frames with
    | nil => intro s; simp
    | cons a l ih =>
        intro s
        rw [List.foldl_cons, cleanupFile_eq_erase, ih]
        ext x
        simp only [Finset.mem_sdiff, Finset.mem_erase, List.toFinset_cons,
          Finset.mem_insert]
        tauto

/-- C6 (failing evaluation): the two failure kinds of `extractAudio`
are not distinguishable by the caller.  An unsupported-platform URL
and a YouTube URL whose download/transcode stream errors both surface
as the identical generic error value, because the enclosing catch of
`extractAudio` rewraps every inner error in the same message. -/
theorem extractAudio_errors_indistinct :
    (extractAudio envStreamErr ytUrl ∅).1
      = Except.error "Failed to extract audio from video"
    ∧ (extractAudio envStreamErr vimeoUrl ∅).1
      = Except.error "Failed to extract audio from video"
    ∧ (extractAudio envStreamErr ytUrl ∅).1 = (extractAudio envStreamErr vimeoUrl ∅).1 :=
  ⟨rfl, rfl, rfl⟩

/-- C6 amended: `extractAudio` does fail on an unsupported platform
and does fail on a download/transcode stream error, but both failures
reach the caller as one and the same generic error
(`'Failed to extract audio from video'`); the two kinds are not
distinct for the caller. -/
theorem extractAudio_generic_failure :
    (∀ (env : Env) (videoUrl : String) (s : Fs),
        isYouTubeUrl videoUrl = false → isInstagramUrl videoUrl = false →
        extractAudio env videoUrl s
          = (Except.error "Failed to extract audio from video", s))
    ∧ (∀ (env : Env) (videoUrl : String) (s : Fs),
        isYouTubeUrl videoUrl = true →
        env.audioOutcome ≠ TranscodeOutcome.success →
        (extractAudio env videoUrl s).1
          = Except.error "Failed to extract audio from video") := by
  constructor
  · intro env videoUrl s h1 h2
    simp [extractAudio, h1, h2]
  · intro env videoUrl s h1 h2
    cases h3 : env.audioOutcome <;>
      simp_all [extractAudio, extractYouTubeAudio, h1]

/-- C6 witness: the amended theorem at concrete inputs. -/
theorem extractAudio_generic_failure_witness :
    extractAudio envStreamErr vimeoUrl ∅
      = (Except.error "Failed to extract audio from video", ∅)
    ∧ (extractAudio envStreamErr ytUrl ∅).1
      = Except.error "Failed to extract audio from video" :=
  ⟨extractAudio_generic_failure.1 envStreamErr vimeoUrl ∅ rfl rfl,
   extractAudio_generic_failure.2 envStreamErr ytUrl ∅ rfl (by decide)⟩

/-- C1 (failing evaluation): a request whose audio branch fails is not
degraded gracefully but fails outright.  In an environment where audio
extraction fails while the visual branch succeeds (its stage, run on
its own, yields ten frame notes), the `/analyze` handler returns the
error response — no `ExtractedContent` with an empty transcript is
returned. -/
theorem processRequest_fails_on_audio_failure :
    (processRequest envStreamErr ytUrl ∅).1
      = Except.error "Failed to extract audio from video"
    ∧ (analyzeVisuals envStreamErr ytUrl ∅).1.frameAnalyses.length = 10 :=
  ⟨rfl, rfl⟩

/-- C1 amended: audio-branch failure (extraction or transcription) is
fatal to the whole request: the handler's catch turns the branch error
into a failure response, substituting no empty transcript, regardless
of whether the visual branch would succeed.  (Only the visual branch
degrades gracefully, inside `analyzeVisuals`.) -/
theorem processRequest_audio_branch_fatal :
    (∀ (env : Env) (url : String) (s : Fs) (e : String) (s1 : Fs),
        extractAudio env url s = (Except.error e, s1) →
        (processRequest env url s).1 = Except.error e)
    ∧ (∀ (env : Env) (url : String) (s : Fs) (p : Path) (s1 : Fs) (e : String) (s2 : Fs),
        extractAudio env url s = (Except.ok p, s1) →
        transcribeAudio env.whisper p s1 = (Except.error e, s2) →
        (processRequest env url s).1 = Except.error e) := by
  constructor
  · intro env url s e s1 h
    simp [processRequest, h]
  · intro env url s p s1 e s2 h1 h2
    simp [processRequest, h1, h2]

/-- C1 witness: the amended theorem at concrete inputs, one per failure
stage. -/
theorem processRequest_audio_branch_fatal_witness :
    (processRequest envStreamErr ytUrl ∅).1
      = Except.error "Failed to extract audio from video"
    ∧ (processRequest envWhisperFail ytUrl ∅).1
      = Except.error "Failed to transcribe audio" :=
  ⟨processRequest_audio_branch_fatal.1 envStreamErr ytUrl ∅ _ _ rfl,
   processRequest_audio_branch_fatal.2 envWhisperFail ytUrl ∅
     "temp/ua-ub.wav" {"temp/ua-ub.wav"} _ _ rfl rfl⟩

/-- C2 (failing evaluation): a temporary asset survives a run.  When
the audio transcode stream errors after its output file has been
created, the run completes (with a failure response) while the
partially written audio asset `temp/ua-ub.wav` is still present in the
scratch directory: no exit path of `extractAudio` deletes it. -/
theorem audio_asset_leaks_on_transcode_error :
    (processRequest envAudioLeak ytUrl ∅).1
      = Except.error "Failed to extract audio from video"
    ∧ "temp/ua-ub.wav" ∈ (processRequest envAudioLeak ytUrl ∅).2 :=
  ⟨rfl, by decide⟩

end VS
